import Mathlib

/-!
Shallow embedding of the burndown analytics core of the RiskBurnDown_BPL
repository (`src/components/dashboard.py` and `src/components/metrics.py`).

Calendar dates are embedded as serial day numbers (`Nat`), day 0 being
0000-03-01 of the proleptic Gregorian calendar.  pandas `Timestamp`s at day
resolution are totally ordered instants, so the source date comparisons
become `Nat` comparisons and `pd.date_range(..., freq=D)` stepping becomes
`+ 1`.  `daysFromCivil` / `civilFromDays` are the standard closed-form
conversions between `(year, month, day)` triples and serial numbers; they
model `pd.Period` (`to_period(M)` / `to_timestamp()`) arithmetic.
-/

namespace RiskBurnDown

/-- Gregorian leap-year test. -/
def isLeap (y : Nat) : Bool :=
  (y % 4 == 0 && y % 100 != 0) || y % 400 == 0

/-- Number of days in month `m` (1..12) of year `y`. -/
def daysInMonth (y m : Nat) : Nat :=
  if m = 2 then (if isLeap y then 29 else 28)
  else if m = 4 ∨ m = 6 ∨ m = 9 ∨ m = 11 then 30 else 31

/-- Serial day number of the calendar date `(y, m, d)`, day 0 = 0000-03-01
(shifted-era form of the standard civil-to-days conversion; meaningful for
`y ≥ 1` or `m ≥ 3`). -/
def daysFromCivil (y m d : Nat) : Nat :=
  (if m ≤ 2 then y - 1 else y) / 400 * 146097 +
    ((if m ≤ 2 then y - 1 else y) % 400 * 365 +
      (if m ≤ 2 then y - 1 else y) % 400 / 4 -
      (if m ≤ 2 then y - 1 else y) % 400 / 100 +
      ((153 * ((m + 9) % 12) + 2) / 5 + (d - 1)))

/-- Calendar date `(y, m, d)` of a serial day number (inverse of
`daysFromCivil`, standard closed-form days-to-civil conversion). -/
def civilFromDays (z : Nat) : Nat × Nat × Nat :=
  let era := z / 146097
  let doe := z % 146097
  let yoe := (doe - doe / 1460 + doe / 36524 - doe / 146096) / 365
  let y2 := yoe + era * 400
  let doy := doe - (365 * yoe + yoe / 4 - yoe / 100)
  let mp := (5 * doy + 2) / 153
  let d := doy - (153 * mp + 2) / 5 + 1
  let m := if mp < 10 then mp + 3 else mp - 9
  (if m ≤ 2 then y2 + 1 else y2, m, d)

/-- Absolute month index of the month containing serial day `z`
(models `Timestamp.to_period(M)`): `12 * year + (month - 1)`. -/
def monthIdxOfDay (z : Nat) : Nat :=
  let c := civilFromDays z
  12 * c.1 + (c.2.1 - 1)

/-- Serial day of the first day of the month with absolute index `μ`
(models `Period.to_timestamp()`). -/
def firstDayOfMonthIdx (μ : Nat) : Nat :=
  daysFromCivil (μ / 12) (μ % 12 + 1) 1

/-- Serial day of the last calendar day of the month with absolute index `μ`
(the closing instant of the month, as §4.3 of the spec words it). -/
def lastDayOfMonthIdx (μ : Nat) : Nat :=
  daysFromCivil (μ / 12) (μ % 12 + 1) (daysInMonth (μ / 12) (μ % 12 + 1))

/-- The reference instant the monthly aggregator evaluates a month at:
`month_end = (month + 1).to_timestamp() - pd.Timedelta(days=1)`
(dashboard.py line 248). -/
def monthEndOfIdx (μ : Nat) : Nat :=
  firstDayOfMonthIdx (μ + 1) - 1

/-- A risk record, restricted to the three date fields the burndown core
reads.  The remaining canonical columns (id, description, type, ...) are
opaque to the interval math.  `closure = none` models an absent (NaT)
`Closure Date (DD-MMM-YY)`. -/
structure Risk where
  openDate : Nat
  expectedEnd : Nat
  closure : Option Nat
deriving DecidableEq, Repr

/-- The record-set dataframe as the core sees it: the risk rows plus the
presence/content of the `YearMonth` column that
`generate_monthly_metrics` assigns onto its input
(`df_part[YearMonth] = ...`, dashboard.py line 233). -/
structure Frame where
  rows : List Risk
  yearMonth : Option (List Nat)
deriving DecidableEq, Repr

/-- The expected-open condition as written at its use sites
(`dashboard.py` lines 88–91, 250–253; `metrics.py` lines 47–50):
`(Risk Open Date <= t) & (Expected End Date > t)`. -/
def expectedOpenOn (r : Risk) (t : Nat) : Bool :=
  decide (r.openDate ≤ t) && decide (r.expectedEnd > t)

/-- The actual-open condition as written at its use sites
(`dashboard.py` lines 93–99, 186–192, 215–221, 255–261; `metrics.py`
lines 54–60): `(Risk Open Date <= t) & (Closure Date isna | Closure Date > t)`. -/
def actualOpenOn (r : Risk) (t : Nat) : Bool :=
  decide (r.openDate ≤ t) &&
    (match r.closure with
     | none => true
     | some c => decide (c > t))

/-- `df_part[Risk Open Date].min()` over the non-empty record set
`r :: rest`. -/
def minOpenDate (r : Risk) (rest : List Risk) : Nat :=
  rest.foldl (fun a x => Nat.min a x.openDate) r.openDate

/-- `df_part[Expected End Date].max()` over the non-empty
record set `r :: rest`. -/
def maxExpectedEnd (r : Risk) (rest : List Risk) : Nat :=
  rest.foldl (fun a x => Nat.max a x.expectedEnd) r.expectedEnd

/-- The present (non-NaT) closure dates of a record set. -/
def presentClosures (rs : List Risk) : List Nat :=
  rs.filterMap (fun x => x.closure)

/-- `df_part[Closure Date].notna().any()`. -/
def anyClosure (rs : List Risk) : Bool :=
  rs.any (fun x => x.closure.isSome)

/-- `series.max()` with pandas `skipna` semantics: the maximum of the
present values, `none` (NaT) when every value is absent. -/
def seriesMax (l : List Nat) : Option Nat :=
  match l with
  | [] => none
  | a :: t => some (t.foldl Nat.max a)

/-- Timeline upper bound of the dashboard.py `generate_burndown`
(lines 79–81): `max(EED.max(), CD.max() if CD.notna().any() else EED.max())`.
The `.getD 0` default is unreachable: when `anyClosure` holds the closure
series is non-empty. -/
def dashMaxDate (r : Risk) (rest : List Risk) : Nat :=
  Nat.max (maxExpectedEnd r rest)
    (if anyClosure (r :: rest) then (seriesMax (presentClosures (r :: rest))).getD 0
     else maxExpectedEnd r rest)

/-- Timeline upper bound of the metrics.py `generate_burndown`
(lines 30–34): `max(EED.max(), CD.max() or EED.max())` — an all-NaT
closure column makes `CD.max()` the falsy `NaT`, selecting the fallback. -/
def metricsMaxDate (r : Risk) (rest : List Risk) : Nat :=
  Nat.max (maxExpectedEnd r rest)
    (match seriesMax (presentClosures (r :: rest)) with
     | some c => c
     | none => maxExpectedEnd r rest)

/-- Spec-side upper bound, following the words of §4.2: the latest of every
record `expected_end_date` and every present record `closure_date` when
present.  To be compared with the code `dashMaxDate` / `metricsMaxDate`. -/
def specUpperBound (rs : List Risk) : Nat :=
  Nat.max ((rs.map (fun x => x.expectedEnd)).foldl Nat.max 0)
    ((presentClosures rs).foldl Nat.max 0)

/-- `pd.date_range(start=minD, end=maxD, freq=D)`: every day from `minD`
to `maxD` inclusive (empty when `maxD < minD`). -/
def dateRange (minD maxD : Nat) : List Nat :=
  List.range' minD (maxD + 1 - minD)

/-- The shared per-day counting loop of both `generate_burndown` variants:
for each timeline day, the number of records whose expected (resp. actual)
interval contains that day. -/
def burndownSeries (rs : List Risk) (minD maxD : Nat) :
    List Nat × List Nat × List Nat :=
  let timeline := dateRange minD maxD
  (timeline,
   timeline.map (fun t => (rs.filter (fun x => expectedOpenOn x t)).length),
   timeline.map (fun t => (rs.filter (fun x => actualOpenOn x t)).length))

/-- `generate_burndown` of `src/components/dashboard.py` (lines 74–104).
The `(None, None, None)` sentinel on an empty record set is modelled as
`none`. -/
def dash_generate_burndown (rs : List Risk) :
    Option (List Nat × List Nat × List Nat) :=
  match rs with
  | [] => none
  | r :: rest => some (burndownSeries (r :: rest) (minOpenDate r rest) (dashMaxDate r rest))

/-- `generate_burndown` of `src/components/metrics.py` (lines 7–65).
Its in-place `pd.to_datetime` coercion of the three date columns rewrites
already-parsed dates with identical values, so on a date-typed frame it is
the identity and the function differs from the dashboard variant only in
the `max_date` expression. -/
def metrics_generate_burndown (rs : List Risk) :
    Option (List Nat × List Nat × List Nat) :=
  match rs with
  | [] => none
  | r :: rest => some (burndownSeries (r :: rest) (minOpenDate r rest) (metricsMaxDate r rest))

/-- Maximum of the non-empty series `a :: t`, as the Python `max(actual_counts)`. -/
def seriesMaxNE (a : Nat) (t : List Nat) : Nat :=
  t.foldl Nat.max a

/-- The peak detector of `plot_burndown` (`dashboard.py` lines 142–144):
`peak_threshold = max(actual_counts) * 0.8`;
`peaks_indices = [i for i, count in enumerate(actual_counts) if count >= peak_threshold]`.
An empty series never reaches the computation (`if actual_counts:`).
The binary64 product `0.8 * m` compares to integer counts exactly as the
rational `4 * m / 5` does for every `m < 2 ^ 50` (and `m` is bounded by the
record count), so the float threshold is embedded as the exact comparison
`5 * count ≥ 4 * m`. -/
def peaksIndices (actualCounts : List Nat) : List Nat :=
  match actualCounts with
  | [] => []
  | a :: t =>
    (List.range (a :: t).length).filter
      (fun i => 5 * (a :: t).getD i 0 ≥ 4 * seriesMaxNE a t)

/-- The drill-down query of `plot_burndown` (`dashboard.py` lines 214–221):
the records with `(Risk Open Date <= t) & (Closure isna | Closure > t)`. -/
def open_risks_on_date (rs : List Risk) (t : Nat) : List Risk :=
  rs.filter (fun x => actualOpenOn x t)

/-- The peak drill-down of `plot_burndown` (`dashboard.py` lines 186–192):
the records actually open at the date of the highest peak, by the same filter. -/
def peak_risks (rs : List Risk) (peakDate : Nat) : List Risk :=
  rs.filter (fun x => actualOpenOn x peakDate)

/-- Result record of `generate_monthly_metrics`: the month timeline, the
three columns of `monthly_rpm_df`, and `avg_rpm`. -/
structure MonthlyResult where
  monthlyTimeline : List Nat
  risksOpened : List Nat
  expectedOpenRisks : List Nat
  actualOpenRisks : List Nat
  avgRpm : ℚ
deriving DecidableEq, Repr

/-- `df_part[Risk Open Date].dt.to_period(M)`: the open month of each
record, the contents of the assigned `YearMonth` column. -/
def openMonths (rs : List Risk) : List Nat :=
  rs.map (fun x => monthIdxOfDay x.openDate)

/-- The distinct keys of `df_part.groupby(YearMonth)`. -/
def distinctOpenMonths (rs : List Risk) : List Nat :=
  (openMonths rs).dedup

/-- `df_part.groupby(YearMonth).size()`: one count per distinct open
month (months with no opened risk yield no group). -/
def groupSizes (rs : List Risk) : List Nat :=
  (distinctOpenMonths rs).map (fun μ => (openMonths rs).count μ)

/-- `series.mean()` of a series of counts, as exact rational division
(the source computes a float). -/
def ratMeanNat (l : List Nat) : ℚ :=
  (l.map (fun n : Nat => (n : ℚ))).sum / (l.length : ℚ)

/-- `pd.period_range(start=min_date.to_period(M),
end=max_date.to_period(M), freq=M)` (dashboard.py line 241). -/
def monthlyTimelineOf (r : Risk) (rest : List Risk) : List Nat :=
  List.range' (monthIdxOfDay (minOpenDate r rest))
    (monthIdxOfDay (dashMaxDate r rest) + 1 - monthIdxOfDay (minOpenDate r rest))

/-- `generate_monthly_metrics` of `src/components/dashboard.py`
(lines 229–273), in state-passing form: the pandas column assignment
`df_part[YearMonth] = df_part[Risk Open Date].dt.to_period(M)`
(line 233) mutates the frame of the caller, so the function returns the updated
frame alongside its result.  `avg_rpm` is the `.mean()` of the groupby
sizes; `Risks Opened` is the group sizes reindexed over the full month
timeline with `fill_value=0`, i.e. the multiplicity of each timeline month among
the open months; the expected/actual columns evaluate the §4.1 conditions
at `month_end = (month + 1).to_timestamp() - 1 day`. -/
def generate_monthly_metrics (f : Frame) : Option MonthlyResult × Frame :=
  match f.rows with
  | [] => (none, f)
  | r :: rest =>
    (some ⟨monthlyTimelineOf r rest,
           (monthlyTimelineOf r rest).map (fun μ => (openMonths (r :: rest)).count μ),
           (monthlyTimelineOf r rest).map
             (fun μ => ((r :: rest).filter (fun x => expectedOpenOn x (monthEndOfIdx μ))).length),
           (monthlyTimelineOf r rest).map
             (fun μ => ((r :: rest).filter (fun x => actualOpenOn x (monthEndOfIdx μ))).length),
           ratMeanNat (groupSizes (r :: rest))⟩,
     { f with yearMonth := some (openMonths (r :: rest)) })

/-!  ## Auxiliary lemmas  -/

lemma isLeap_add400 (y : Nat) : isLeap (y + 400) = isLeap y := by
  have h4 : (y + 400) % 4 = y % 4 := by omega
  have h100 : (y + 400) % 100 = y % 100 := by omega
  have h400 : (y + 400) % 400 = y % 400 := by omega
  simp [isLeap, h4, h100, h400]

lemma daysInMonth_add400 (y m : Nat) : daysInMonth (y + 400) m = daysInMonth y m := by
  simp [daysInMonth, isLeap_add400]

lemma dfc_add400 (y m d : Nat) (hy : 1 ≤ y) :
    daysFromCivil (y + 400) m d = daysFromCivil y m d + 146097 := by
  unfold daysFromCivil
  have hw : (if m ≤ 2 then y + 400 - 1 else y + 400) = (if m ≤ 2 then y - 1 else y) + 400 := by
    split_ifs <;> omega
  rw [hw]
  generalize (if m ≤ 2 then y - 1 else y) = w
  generalize (153 * ((m + 9) % 12) + 2) / 5 + (d - 1) = D
  have e1 : (w + 400) / 400 = w / 400 + 1 := by omega
  have e2 : (w + 400) % 400 = w % 400 := by omega
  rw [e1, e2]
  have e3 : w % 400 / 100 ≤ w % 400 / 4 := Nat.div_le_div_left (by norm_num) (by norm_num)
  omega

lemma dfc_pos (y m d : Nat) (hy : 1 ≤ y) (hm : 1 ≤ m) : 1 ≤ daysFromCivil y m d := by
  unfold daysFromCivil
  split_ifs with h2
  · have hmp : (m + 9) % 12 = m + 9 := by omega
    rw [hmp]
    generalize hw : y - 1 = w
    have e3 : w % 400 / 100 ≤ w % 400 / 4 := Nat.div_le_div_left (by norm_num) (by norm_num)
    omega
  · generalize hD : (153 * ((m + 9) % 12) + 2) / 5 + (d - 1) = D
    have e3 : y % 400 / 100 ≤ y % 400 / 4 := Nat.div_le_div_left (by norm_num) (by norm_num)
    omega

lemma monthEnd_add4800 (μ : Nat) (h : 12 ≤ μ) :
    monthEndOfIdx (μ + 4800) = monthEndOfIdx μ + 146097 := by
  unfold monthEndOfIdx firstDayOfMonthIdx
  have e1 : (μ + 4800 + 1) / 12 = (μ + 1) / 12 + 400 := by omega
  have e2 : (μ + 4800 + 1) % 12 = (μ + 1) % 12 := by omega
  rw [e1, e2, dfc_add400 _ _ _ (by omega)]
  have := dfc_pos ((μ + 1) / 12) ((μ + 1) % 12 + 1) 1 (by omega) (by omega)
  omega

lemma lastDay_add4800 (μ : Nat) (h : 12 ≤ μ) :
    lastDayOfMonthIdx (μ + 4800) = lastDayOfMonthIdx μ + 146097 := by
  unfold lastDayOfMonthIdx
  have e1 : (μ + 4800) / 12 = μ / 12 + 400 := by omega
  have e2 : (μ + 4800) % 12 = μ % 12 := by omega
  rw [e1, e2, daysInMonth_add400, dfc_add400 _ _ _ (by omega)]

set_option maxRecDepth 4000 in
lemma monthEnd_base0 : ∀ k < 480, monthEndOfIdx (12 + k) = lastDayOfMonthIdx (12 + k) := by decide

set_option maxRecDepth 4000 in
lemma monthEnd_base1 : ∀ k < 480, monthEndOfIdx (492 + k) = lastDayOfMonthIdx (492 + k) := by decide

set_option maxRecDepth 4000 in
lemma monthEnd_base2 : ∀ k < 480, monthEndOfIdx (972 + k) = lastDayOfMonthIdx (972 + k) := by decide

set_option maxRecDepth 4000 in
lemma monthEnd_base3 : ∀ k < 480, monthEndOfIdx (1452 + k) = lastDayOfMonthIdx (1452 + k) := by decide

set_option maxRecDepth 4000 in
lemma monthEnd_base4 : ∀ k < 480, monthEndOfIdx (1932 + k) = lastDayOfMonthIdx (1932 + k) := by decide

set_option maxRecDepth 4000 in
lemma monthEnd_base5 : ∀ k < 480, monthEndOfIdx (2412 + k) = lastDayOfMonthIdx (2412 + k) := by decide

set_option maxRecDepth 4000 in
lemma monthEnd_base6 : ∀ k < 480, monthEndOfIdx (2892 + k) = lastDayOfMonthIdx (2892 + k) := by decide

set_option maxRecDepth 4000 in
lemma monthEnd_base7 : ∀ k < 480, monthEndOfIdx (3372 + k) = lastDayOfMonthIdx (3372 + k) := by decide

set_option maxRecDepth 4000 in
lemma monthEnd_base8 : ∀ k < 480, monthEndOfIdx (3852 + k) = lastDayOfMonthIdx (3852 + k) := by decide

set_option maxRecDepth 4000 in
lemma monthEnd_base9 : ∀ k < 480, monthEndOfIdx (4332 + k) = lastDayOfMonthIdx (4332 + k) := by decide

/-- The monthly aggregator reference instant
`(month + 1).to_timestamp() - 1 day` is exactly the last calendar day of
month `μ`, for any month of year ≥ 1 (proved by 400-year periodicity of
the Gregorian calendar plus a finite check of one full cycle). -/
lemma monthEnd_eq_lastDay (μ : Nat) (h : 12 ≤ μ) :
    monthEndOfIdx μ = lastDayOfMonthIdx μ := by
  induction μ using Nat.strong_induction_on with
  | _ μ ih =>
    by_cases hlt : μ < 4812
    · have pick : ∀ b : Nat, b + 480 ≤ 4812 → b ≤ μ → μ < b + 480 →
          (∀ k < 480, monthEndOfIdx (b + k) = lastDayOfMonthIdx (b + k)) →
          monthEndOfIdx μ = lastDayOfMonthIdx μ := by
        intro b hb hbμ hμb hbase
        have := hbase (μ - b) (by omega)
        rwa [show b + (μ - b) = μ from by omega] at this
      rcases Nat.lt_or_ge μ 492 with h1 | h1
      · exact pick 12 (by norm_num) (by omega) (by omega) monthEnd_base0
      rcases Nat.lt_or_ge μ 972 with h2 | h2
      · exact pick 492 (by norm_num) (by omega) (by omega) monthEnd_base1
      rcases Nat.lt_or_ge μ 1452 with h3 | h3
      · exact pick 972 (by norm_num) (by omega) (by omega) monthEnd_base2
      rcases Nat.lt_or_ge μ 1932 with h4 | h4
      · exact pick 1452 (by norm_num) (by omega) (by omega) monthEnd_base3
      rcases Nat.lt_or_ge μ 2412 with h5 | h5
      · exact pick 1932 (by norm_num) (by omega) (by omega) monthEnd_base4
      rcases Nat.lt_or_ge μ 2892 with h6 | h6
      · exact pick 2412 (by norm_num) (by omega) (by omega) monthEnd_base5
      rcases Nat.lt_or_ge μ 3372 with h7 | h7
      · exact pick 2892 (by norm_num) (by omega) (by omega) monthEnd_base6
      rcases Nat.lt_or_ge μ 3852 with h8 | h8
      · exact pick 3372 (by norm_num) (by omega) (by omega) monthEnd_base7
      rcases Nat.lt_or_ge μ 4332 with h9 | h9
      · exact pick 3852 (by norm_num) (by omega) (by omega) monthEnd_base8
      exact pick 4332 (by norm_num) (by omega) (by omega) monthEnd_base9
    · have h2 : 12 ≤ μ - 4800 := by omega
      have hrec := ih (μ - 4800) (by omega) h2
      have hm := monthEnd_add4800 (μ - 4800) h2
      have hl := lastDay_add4800 (μ - 4800) h2
      rw [show μ - 4800 + 4800 = μ from by omega] at hm hl
      omega

lemma le_foldl_max_init (l : List Nat) (a : Nat) : a ≤ l.foldl Nat.max a := by
  induction l generalizing a with
  | nil => simp
  | cons b t ih => exact le_trans (Nat.le_max_left a b) (ih (Nat.max a b))

lemma le_foldl_max_of_mem {x : Nat} {l : List Nat} (a : Nat) (hx : x ∈ l) :
    x ≤ l.foldl Nat.max a := by
  induction l generalizing a with
  | nil => cases hx
  | cons b t ih =>
    rcases List.mem_cons.mp hx with rfl | hmem
    · exact le_trans (Nat.le_max_right a x) (le_foldl_max_init t _)
    · exact ih _ hmem

lemma foldl_min_init_le (l : List Nat) (a : Nat) : l.foldl Nat.min a ≤ a := by
  induction l generalizing a with
  | nil => simp
  | cons b t ih => exact le_trans (ih (Nat.min a b)) (Nat.min_le_left a b)

lemma foldl_min_le_of_mem {x : Nat} {l : List Nat} (a : Nat) (hx : x ∈ l) :
    l.foldl Nat.min a ≤ x := by
  induction l generalizing a with
  | nil => cases hx
  | cons b t ih =>
    rcases List.mem_cons.mp hx with rfl | hmem
    · exact le_trans (foldl_min_init_le t _) (Nat.min_le_right a x)
    · exact ih _ hmem

lemma foldl_max_zero_cons (a : Nat) (t : List Nat) :
    (a :: t).foldl Nat.max 0 = t.foldl Nat.max a := by
  simp [List.foldl_cons, Nat.zero_max]

lemma maxExpectedEnd_eq (r : Risk) (rest : List Risk) :
    maxExpectedEnd r rest = ((r :: rest).map (fun x => x.expectedEnd)).foldl Nat.max 0 := by
  rw [List.map_cons, foldl_max_zero_cons, List.foldl_map]
  rfl

lemma minOpenDate_eq (r : Risk) (rest : List Risk) :
    minOpenDate r rest = (rest.map (fun x => x.openDate)).foldl Nat.min r.openDate := by
  rw [List.foldl_map]
  rfl

lemma minOpenDate_le_of_mem {x : Risk} (r : Risk) (rest : List Risk) (hx : x ∈ r :: rest) :
    minOpenDate r rest ≤ x.openDate := by
  rw [minOpenDate_eq]
  rcases List.mem_cons.mp hx with rfl | hmem
  · exact foldl_min_init_le _ _
  · exact foldl_min_le_of_mem _ (List.mem_map_of_mem _ hmem)

lemma expectedEnd_le_maxExpectedEnd {x : Risk} (r : Risk) (rest : List Risk)
    (hx : x ∈ r :: rest) : x.expectedEnd ≤ maxExpectedEnd r rest := by
  rw [maxExpectedEnd_eq]
  exact le_foldl_max_of_mem _ (List.mem_map_of_mem _ hx)

lemma anyClosure_iff (rs : List Risk) : anyClosure rs = true ↔ presentClosures rs ≠ [] := by
  simp only [anyClosure, presentClosures, List.any_eq_true, Ne,
    List.filterMap_eq_nil_iff, Option.isSome_iff_ne_none]
  constructor
  · rintro ⟨x, hx, hne⟩ hall
    exact hne (hall x hx)
  · intro hnot
    by_contra hnone
    push_neg at hnone
    exact hnot hnone

lemma dashMaxDate_eq_spec (r : Risk) (rest : List Risk) :
    dashMaxDate r rest = specUpperBound (r :: rest) := by
  unfold dashMaxDate specUpperBound
  rw [← maxExpectedEnd_eq]
  rcases h : presentClosures (r :: rest) with _ | ⟨a, t⟩
  · have hany : anyClosure (r :: rest) = false := by
      cases hb : anyClosure (r :: rest)
      · rfl
      · exact absurd h ((anyClosure_iff _).mp hb)
    rw [hany]
    simp
  · have hany : anyClosure (r :: rest) = true := (anyClosure_iff _).mpr (by rw [h]; simp)
    rw [hany]
    simp [seriesMax, foldl_max_zero_cons]

lemma metricsMaxDate_eq_spec (r : Risk) (rest : List Risk) :
    metricsMaxDate r rest = specUpperBound (r :: rest) := by
  unfold metricsMaxDate specUpperBound
  rw [← maxExpectedEnd_eq]
  rcases h : presentClosures (r :: rest) with _ | ⟨a, t⟩
  · simp [seriesMax]
  · simp [seriesMax, foldl_max_zero_cons]

lemma mem_dateRange (minD maxD t : Nat) :
    t ∈ dateRange minD maxD ↔ minD ≤ t ∧ t ≤ maxD := by
  rw [dateRange, List.mem_range'_1]
  omega

lemma getD_map_lt {α β : Type} (f : α → β) (l : List α) (i : Nat) (d : β) (dd : α)
    (h : i < l.length) : (l.map f).getD i d = f (l.getD i dd) := by
  rw [List.getD_eq_getElem (l.map f) d (by simpa using h),
    List.getD_eq_getElem l dd h, List.getElem_map]

/-!  ## Claim theorems  -/

/-- C1: the interval classifier used by the daily series (both variants),
the monthly aggregator, the drill-down and the peak drill-down evaluates
expected-open as open_date ≤ t AND expected_end_date > t and actual-open as
open_date ≤ t AND (closure absent OR closure > t): inclusive lower bound,
strict upper bound, absent closure never closes. -/
theorem interval_classifier_spec :
    (∀ (r : Risk) (t : Nat),
        (expectedOpenOn r t = true ↔ r.openDate ≤ t ∧ r.expectedEnd > t) ∧
        (actualOpenOn r t = true ↔
          r.openDate ≤ t ∧ (r.closure = none ∨ ∃ c, r.closure = some c ∧ c > t))) ∧
    (∀ (rs : List Risk) (t : Nat),
        open_risks_on_date rs t = rs.filter (fun x => actualOpenOn x t)) ∧
    (∀ (rs : List Risk) (d : Nat),
        peak_risks rs d = rs.filter (fun x => actualOpenOn x d)) ∧
    (∀ (r : Risk) (rest : List Risk),
        dash_generate_burndown (r :: rest) =
          some (dateRange (minOpenDate r rest) (dashMaxDate r rest),
            (dateRange (minOpenDate r rest) (dashMaxDate r rest)).map
              (fun t => (r :: rest).countP (fun x => expectedOpenOn x t)),
            (dateRange (minOpenDate r rest) (dashMaxDate r rest)).map
              (fun t => (r :: rest).countP (fun x => actualOpenOn x t)))) ∧
    (∀ (r : Risk) (rest : List Risk),
        metrics_generate_burndown (r :: rest) =
          some (dateRange (minOpenDate r rest) (metricsMaxDate r rest),
            (dateRange (minOpenDate r rest) (metricsMaxDate r rest)).map
              (fun t => (r :: rest).countP (fun x => expectedOpenOn x t)),
            (dateRange (minOpenDate r rest) (metricsMaxDate r rest)).map
              (fun t => (r :: rest).countP (fun x => actualOpenOn x t)))) ∧
    (∀ (r : Risk) (rest : List Risk) (ymo : Option (List Nat)),
        ((generate_monthly_metrics ⟨r :: rest, ymo⟩).1).map
            (fun res => (res.expectedOpenRisks, res.actualOpenRisks)) =
          some ((monthlyTimelineOf r rest).map
              (fun μ => (r :: rest).countP (fun x => expectedOpenOn x (monthEndOfIdx μ))),
            (monthlyTimelineOf r rest).map
              (fun μ => (r :: rest).countP (fun x => actualOpenOn x (monthEndOfIdx μ))))) := by
  refine ⟨?_, fun rs t => rfl, fun rs d => rfl, ?_, ?_, ?_⟩
  · intro r t
    constructor
    · simp [expectedOpenOn]
    · cases hc : r.closure with
      | none => simp [actualOpenOn, hc]
      | some c => simp [actualOpenOn, hc]
  · intro r rest
    simp [dash_generate_burndown, burndownSeries, List.countP_eq_length_filter]
  · intro r rest
    simp [metrics_generate_burndown, burndownSeries, List.countP_eq_length_filter]
  · intro r rest ymo
    simp [generate_monthly_metrics, List.countP_eq_length_filter]

/-- C10: on any record set with date-typed fields, the two near-duplicate
daily generators of dashboard.py and metrics.py return equal results,
including the sentinel on the empty set and the all-absent-closure edge
case. -/
theorem generate_burndown_variants_eq (rs : List Risk) :
    dash_generate_burndown rs = metrics_generate_burndown rs := by
  cases rs with
  | nil => rfl
  | cons r rest =>
    simp only [dash_generate_burndown, metrics_generate_burndown,
      dashMaxDate_eq_spec, metricsMaxDate_eq_spec]

/-- C6: on the empty record set both daily generators and the monthly
aggregator return the no-series sentinel (modelled as `none`) instead of
failing; the monthly aggregator also leaves the frame untouched. -/
theorem empty_record_set_sentinel :
    dash_generate_burndown [] = none ∧ metrics_generate_burndown [] = none ∧
    ∀ ymo : Option (List Nat),
      generate_monthly_metrics ⟨[], ymo⟩ = (none, ⟨[], ymo⟩) :=
  ⟨rfl, rfl, fun _ => rfl⟩

/-- C7 (amended): the daily generators, peak detector and drill-down are
pure reads, but the monthly aggregator writes the YearMonth column onto its
input frame: the returned frame keeps the rows unchanged and gains
`yearMonth = some (openMonths rows)` whenever the row set is non-empty. -/
theorem monthly_aggregator_frame_effect :
    (∀ (r : Risk) (rest : List Risk) (ymo : Option (List Nat)),
        (generate_monthly_metrics ⟨r :: rest, ymo⟩).2 =
          ⟨r :: rest, some (openMonths (r :: rest))⟩) ∧
    (∀ ymo : Option (List Nat), (generate_monthly_metrics ⟨[], ymo⟩).2 = ⟨[], ymo⟩) ∧
    (∀ f : Frame, (generate_monthly_metrics f).2.rows = f.rows) := by
  refine ⟨fun r rest ymo => rfl, fun ymo => rfl, ?_⟩
  intro f
  rcases f with ⟨rows, ym⟩
  cases rows <;> rfl

/-- C7 (counterexample): the monthly aggregator does not leave the input
record set unchanged — on a frame without a YearMonth column it returns a
frame with one added. -/
theorem monthly_aggregator_mutates_cx :
    (generate_monthly_metrics ⟨[⟨739251, 739301, none⟩], none⟩).2 ≠
      ⟨[⟨739251, 739301, none⟩], none⟩ := by decide

/-- C8 (amended): expected-open is true at the open date only when the
interval is non-degenerate (open_date < expected_end_date), and is always
false at the expected end date. -/
theorem expected_open_boundary (r : Risk) :
    (r.openDate < r.expectedEnd → expectedOpenOn r r.openDate = true) ∧
    expectedOpenOn r r.expectedEnd = false := by
  constructor
  · intro h
    simp [expectedOpenOn]
    omega
  · simp [expectedOpenOn]

/-- C8 (witness): a concrete non-degenerate record realising both boundary
facts. -/
theorem expected_open_boundary_witness :
    expectedOpenOn ⟨3, 7, none⟩ 3 = true ∧ expectedOpenOn ⟨3, 7, none⟩ 7 = false :=
  ⟨(expected_open_boundary ⟨3, 7, none⟩).1 (by decide),
   (expected_open_boundary ⟨3, 7, none⟩).2⟩

/-- C8 (counterexample): a zero-width record satisfies the assumed
invariant open_date ≤ expected_end_date yet is not expected-open at its own
open date, refuting the claim as stated. -/
theorem expected_open_boundary_cx :
    (Risk.mk 5 5 none).openDate ≤ (Risk.mk 5 5 none).expectedEnd ∧
    expectedOpenOn ⟨5, 5, none⟩ ((Risk.mk 5 5 none).openDate) = false := by
  decide

/-- C3 (amended): the peak detector yields no peaks on an empty series;
on a non-empty series it flags exactly the indices whose count is at least
0.8 times the series maximum (ties included) — hence an all-zero series
flags every index, not none. -/
theorem peak_detector_spec :
    peaksIndices [] = [] ∧
    ∀ (a : Nat) (t : List Nat) (i : Nat),
      i ∈ peaksIndices (a :: t) ↔
        i < (a :: t).length ∧ 4 * seriesMaxNE a t ≤ 5 * (a :: t).getD i 0 := by
  refine ⟨rfl, ?_⟩
  intro a t i
  simp [peaksIndices, List.mem_filter, List.mem_range]

/-- C3 (witness): index 1 of the series [1, 5, 4, 2, 5] is flagged. -/
theorem peak_detector_spec_witness : 1 ∈ peaksIndices [1, 5, 4, 2, 5] :=
  (peak_detector_spec.2 1 [5, 4, 2, 5] 1).mpr (by decide)

/-- C3 (counterexample): an all-zero non-empty series produces peaks at
every index (0 ≥ 0.8 × 0), not an empty peak set as claimed. -/
theorem peak_detector_all_zero_cx :
    peaksIndices [0, 0] ≠ [] ∧ peaksIndices [0, 0] = [0, 1] := by decide



/-- C2: for a non-empty record set the daily timeline of both generators
runs from the minimum open date to the spec upper bound (latest expected
end or present closure), inclusive with step one day, and with every
closure absent the upper bound falls back to the maximum expected end. -/
theorem daily_timeline_bounds (r : Risk) (rest : List Risk)
    (hinv : ∀ x ∈ r :: rest, x.openDate ≤ x.expectedEnd) (t : Nat) :
    ((dash_generate_burndown (r :: rest)).map (fun p => p.1) =
      some (dateRange (minOpenDate r rest) (specUpperBound (r :: rest)))) ∧
    ((metrics_generate_burndown (r :: rest)).map (fun p => p.1) =
      some (dateRange (minOpenDate r rest) (specUpperBound (r :: rest)))) ∧
    (t ∈ dateRange (minOpenDate r rest) (specUpperBound (r :: rest)) ↔
      minOpenDate r rest ≤ t ∧ t ≤ specUpperBound (r :: rest)) ∧
    minOpenDate r rest ∈
      dateRange (minOpenDate r rest) (specUpperBound (r :: rest)) ∧
    specUpperBound (r :: rest) ∈
      dateRange (minOpenDate r rest) (specUpperBound (r :: rest)) ∧
    ((∀ x ∈ r :: rest, x.closure = none) →
      specUpperBound (r :: rest) = maxExpectedEnd r rest) := by
  have h4 : maxExpectedEnd r rest ≤ specUpperBound (r :: rest) := by
    rw [maxExpectedEnd_eq]
    exact Nat.le_max_left _ _
  have hms : minOpenDate r rest ≤ specUpperBound (r :: rest) := by
    have h1 : minOpenDate r rest ≤ r.openDate := minOpenDate_le_of_mem r rest (by simp)
    have h2 : r.openDate ≤ r.expectedEnd := hinv r (by simp)
    have h3 : r.expectedEnd ≤ maxExpectedEnd r rest :=
      expectedEnd_le_maxExpectedEnd r rest (by simp)
    omega
  refine ⟨?_, ?_, mem_dateRange _ _ _, ?_, ?_, ?_⟩
  · simp [dash_generate_burndown, burndownSeries, dashMaxDate_eq_spec]
  · simp [metrics_generate_burndown, burndownSeries, metricsMaxDate_eq_spec]
  · exact (mem_dateRange _ _ _).mpr ⟨le_refl _, hms⟩
  · exact (mem_dateRange _ _ _).mpr ⟨hms, le_refl _⟩
  · intro hnone
    have hp : presentClosures (r :: rest) = [] :=
      List.filterMap_eq_nil_iff.mpr (fun x hx => hnone x hx)
    unfold specUpperBound
    rw [hp, ← maxExpectedEnd_eq]
    simp

/-- C2 (witness): concrete record sets realising the timeline bounds and
the all-absent-closure fallback. -/
theorem daily_timeline_bounds_witness :
    minOpenDate ⟨10, 15, some 18⟩ [⟨12, 14, none⟩] ∈
      dateRange (minOpenDate ⟨10, 15, some 18⟩ [⟨12, 14, none⟩])
        (specUpperBound [⟨10, 15, some 18⟩, ⟨12, 14, none⟩]) ∧
    specUpperBound [⟨10, 15, none⟩] = maxExpectedEnd ⟨10, 15, none⟩ [] :=
  ⟨(daily_timeline_bounds ⟨10, 15, some 18⟩ [⟨12, 14, none⟩] (by decide) 0).2.2.2.1,
   (daily_timeline_bounds ⟨10, 15, none⟩ [] (by decide) 0).2.2.2.2.2 (by decide)⟩

/-- C9 (amended): the drill-down query returns exactly the records whose
actual-open interval contains t, for every t without error; before the
timeline start the result is empty, but after the timeline end it is
exactly the never-closed records (so not empty in general). -/
theorem drilldown_query_spec (r : Risk) (rest : List Risk)
    (hinv : ∀ x ∈ r :: rest, x.openDate ≤ x.expectedEnd) (t : Nat) :
    open_risks_on_date (r :: rest) t = (r :: rest).filter (fun x => actualOpenOn x t) ∧
    (t < minOpenDate r rest → open_risks_on_date (r :: rest) t = []) ∧
    (dashMaxDate r rest < t →
      open_risks_on_date (r :: rest) t =
        (r :: rest).filter (fun x => x.closure.isNone)) := by
  refine ⟨rfl, ?_, ?_⟩
  · intro ht
    unfold open_risks_on_date
    rw [List.filter_eq_nil_iff]
    intro x hx
    have h1 := minOpenDate_le_of_mem r rest hx
    simp only [actualOpenOn, Bool.and_eq_true, decide_eq_true_eq, not_and]
    intro h2
    exact absurd (le_trans h1 h2) (Nat.not_le.mpr ht)
  · intro ht
    unfold open_risks_on_date
    apply List.filter_congr
    intro x hx
    cases hc : x.closure with
    | none =>
      have h1 := hinv x hx
      have h2 := expectedEnd_le_maxExpectedEnd r rest hx
      have h3 : maxExpectedEnd r rest ≤ dashMaxDate r rest := by
        unfold dashMaxDate
        exact Nat.le_max_left _ _
      simp only [actualOpenOn, hc, Option.isNone_none, Bool.and_true, decide_eq_true_eq]
      omega
    | some c =>
      have hcmem : c ∈ presentClosures (r :: rest) := by
        unfold presentClosures
        exact List.mem_filterMap.mpr ⟨x, hx, hc⟩
      have h4 : c ≤ (presentClosures (r :: rest)).foldl Nat.max 0 :=
        le_foldl_max_of_mem _ hcmem
      have h5 : (presentClosures (r :: rest)).foldl Nat.max 0 ≤ specUpperBound (r :: rest) :=
        Nat.le_max_right _ _
      have h6 : dashMaxDate r rest = specUpperBound (r :: rest) := dashMaxDate_eq_spec r rest
      have h7 : ¬ (c > t) := by omega
      simp [actualOpenOn, hc, h7]

/-- C9 (witness): a never-closed record is excluded before its open date
and returned by the after-the-timeline query. -/
theorem drilldown_query_spec_witness :
    open_risks_on_date [⟨10, 20, none⟩] 5 = [] ∧
    open_risks_on_date [⟨10, 20, none⟩] 100 =
      List.filter (fun x => x.closure.isNone) [⟨10, 20, none⟩] :=
  ⟨(drilldown_query_spec ⟨10, 20, none⟩ [] (by decide) 5).2.1 (by decide),
   (drilldown_query_spec ⟨10, 20, none⟩ [] (by decide) 100).2.2 (by decide)⟩

/-- C9 (counterexample): for a date strictly after every timeline day the
drill-down returns the never-closed record, not the empty set the claim
asserts. -/
theorem drilldown_out_of_range_cx :
    dash_generate_burndown [⟨10, 20, none⟩] =
      some (dateRange 10 20,
        [1, 1, 1, 1, 1, 1, 1, 1, 1, 1, 0],
        [1, 1, 1, 1, 1, 1, 1, 1, 1, 1, 1]) ∧
    (dateRange 10 20).all (fun d => d < 100) = true ∧
    open_risks_on_date [⟨10, 20, none⟩] 100 ≠ [] := by decide



lemma cast_sum_eq (l : List Nat) : (l.map (fun n : Nat => (n : ℚ))).sum = (l.sum : ℚ) := by
  induction l with
  | nil => simp only [List.map_nil, List.sum_nil, Nat.cast_zero]
  | cons a t ih => simp only [List.map_cons, List.sum_cons, ih, Nat.cast_add]

lemma ratMeanNat_eq (l : List Nat) : ratMeanNat l = (l.sum : ℚ) / (l.length : ℚ) := by
  unfold ratMeanNat
  rw [cast_sum_eq]

lemma groupSizes_sum (rs : List Risk) : (groupSizes rs).sum = rs.length := by
  unfold groupSizes distinctOpenMonths
  rw [List.sum_map_count_dedup_eq_length]
  unfold openMonths
  rw [List.length_map]

lemma groupSizes_length (rs : List Risk) :
    (groupSizes rs).length = (distinctOpenMonths rs).length :=
  List.length_map _ _

/-- C4: for a non-empty record set (with dates in year ≥ 1) every month of
the monthly timeline gets its expected/actual open count evaluated with
the §4.1 predicates at the last calendar day of that month. -/
theorem monthly_snapshot_at_month_end (r : Risk) (rest : List Risk)
    (ymo : Option (List Nat))
    (h12 : 12 ≤ monthIdxOfDay (minOpenDate r rest)) (i : Nat)
    (hi : i < (monthlyTimelineOf r rest).length) :
    ((generate_monthly_metrics ⟨r :: rest, ymo⟩).1).map
        (fun res => res.monthlyTimeline) = some (monthlyTimelineOf r rest) ∧
    ((generate_monthly_metrics ⟨r :: rest, ymo⟩).1).map
        (fun res => res.expectedOpenRisks.getD i 0) =
      some ((r :: rest).countP (fun x =>
        expectedOpenOn x (lastDayOfMonthIdx ((monthlyTimelineOf r rest).getD i 0)))) ∧
    ((generate_monthly_metrics ⟨r :: rest, ymo⟩).1).map
        (fun res => res.actualOpenRisks.getD i 0) =
      some ((r :: rest).countP (fun x =>
        actualOpenOn x (lastDayOfMonthIdx ((monthlyTimelineOf r rest).getD i 0)))) := by
  have hget : (monthlyTimelineOf r rest).getD i 0 =
      monthIdxOfDay (minOpenDate r rest) + i := by
    unfold monthlyTimelineOf at hi ⊢
    rw [List.getD_eq_getElem _ _ hi, List.getElem_range']
    omega
  have h12i : 12 ≤ (monthlyTimelineOf r rest).getD i 0 := by
    rw [hget]
    omega
  have hmono := monthEnd_eq_lastDay _ h12i
  refine ⟨rfl, ?_, ?_⟩
  · show some (((monthlyTimelineOf r rest).map
        (fun μ => ((r :: rest).filter
          (fun x => expectedOpenOn x (monthEndOfIdx μ))).length)).getD i 0) = _
    rw [getD_map_lt _ _ _ _ 0 hi, ← hmono, List.countP_eq_length_filter]
  · show some (((monthlyTimelineOf r rest).map
        (fun μ => ((r :: rest).filter
          (fun x => actualOpenOn x (monthEndOfIdx μ))).length)).getD i 0) = _
    rw [getD_map_lt _ _ _ _ 0 hi, ← hmono, List.countP_eq_length_filter]

/-- C4 (witness): spec Scenario 4 — a record open through March 2024 and
closing April 15 2024 is counted actually open for March (at March 31)
and not for April (at April 30). -/
theorem monthly_snapshot_at_month_end_witness :
    (((generate_monthly_metrics ⟨[⟨739251, 739301, some 739296⟩], none⟩).1).map
        (fun res => res.actualOpenRisks.getD 0 0) =
      some (([⟨739251, 739301, some 739296⟩] : List Risk).countP (fun x =>
        actualOpenOn x (lastDayOfMonthIdx
          ((monthlyTimelineOf ⟨739251, 739301, some 739296⟩ []).getD 0 0))))) ∧
    (((generate_monthly_metrics ⟨[⟨739251, 739301, some 739296⟩], none⟩).1).map
        (fun res => res.actualOpenRisks.getD 1 0) =
      some (([⟨739251, 739301, some 739296⟩] : List Risk).countP (fun x =>
        actualOpenOn x (lastDayOfMonthIdx
          ((monthlyTimelineOf ⟨739251, 739301, some 739296⟩ []).getD 1 0))))) ∧
    ((generate_monthly_metrics ⟨[⟨739251, 739301, some 739296⟩], none⟩).1).map
        (fun res => res.actualOpenRisks) = some [1, 0] :=
  ⟨(monthly_snapshot_at_month_end ⟨739251, 739301, some 739296⟩ [] none
      (by decide) 0 (by decide)).2.2,
   (monthly_snapshot_at_month_end ⟨739251, 739301, some 739296⟩ [] none
      (by decide) 1 (by decide)).2.2,
   by decide⟩

/-- C5 (amended): avg_rpm is the arithmetic mean of the groupby sizes, i.e.
the record count divided by the number of distinct months in which a risk
was opened — months of the timeline with zero opens are omitted from this
mean, not counted as zero. -/
theorem monthly_avg_over_open_months (r : Risk) (rest : List Risk)
    (ymo : Option (List Nat)) :
    ((generate_monthly_metrics ⟨r :: rest, ymo⟩).1).map (fun res => res.avgRpm) =
      some (((r :: rest).length : ℚ) /
        ((distinctOpenMonths (r :: rest)).length : ℚ)) := by
  show some (ratMeanNat (groupSizes (r :: rest))) = _
  rw [ratMeanNat_eq, groupSizes_sum, groupSizes_length]

/-- C5 (counterexample): with risks opened in January and March 2024 only,
the produced timeline spans three months with opened counts [1, 0, 1], yet
avg_rpm is the mean of the two groupby sizes [1, 1] — the zero-open
February is omitted, so avg_rpm differs from the claimed timeline mean. -/
theorem monthly_avg_cx :
    ((generate_monthly_metrics
        ⟨[⟨739200, 739270, none⟩, ⟨739255, 739270, none⟩], none⟩).1).map
        (fun res => res.risksOpened) = some [1, 0, 1] ∧
    ((generate_monthly_metrics
        ⟨[⟨739200, 739270, none⟩, ⟨739255, 739270, none⟩], none⟩).1).map
        (fun res => res.avgRpm) =
      some (ratMeanNat (groupSizes [⟨739200, 739270, none⟩, ⟨739255, 739270, none⟩])) ∧
    groupSizes [⟨739200, 739270, none⟩, ⟨739255, 739270, none⟩] = [1, 1] ∧
    ratMeanNat [1, 1] ≠ ratMeanNat [1, 0, 1] := by
  refine ⟨by decide, rfl, by decide, ?_⟩
  norm_num [ratMeanNat]

end RiskBurnDown
